import Mathlib

/-!
Shallow embedding of the sidecar process supervisor from
`src/recreate_tauri_app/src-tauri/src/sidecar.rs`.

The `SidecarManager` struct holds three mutex-protected fields
(`is_running`, `child_id`, `error_message`); here it is a plain record
and each Rust method becomes a pure function from the pre-state and an
environment outcome (spawn result, kill result, HTTP outcome) to a
result, post-state, and an observability flag recording whether the
external action (spawn / kill / network request) was attempted.
-/

namespace Sidecar

/-- Model of `serde_json::Value` (only the structure `health_check` inspects). -/
inductive Json where
  | null : Json
  | bool (b : Bool) : Json
  | num (n : Int) : Json
  | str (s : String) : Json
  | arr (elems : List Json) : Json
  | obj (fields : List (String × Json)) : Json
deriving Repr

/-- Field lookup in a JSON object's field list (first match, as in a map). -/
def Json.getField : List (String × Json) → String → Option Json
  | [], _ => none
  | (k, v) :: rest, key => if k = key then some v else Json.getField rest key

/-- `serde_json::Value::get(key)`: `Some` only on objects holding the key. -/
def Json.get : Json → String → Option Json
  | .obj fields, key => Json.getField fields key
  | _, _ => none

/-- `serde_json::Value::as_str()`. -/
def Json.asStr : Json → Option String
  | .str s => some s
  | _ => none

/-- The supervisor state: the three fields of the Rust `SidecarManager`
(`is_running: bool`, `child_id: Option<u32>`, `error_message: Option<String>`). -/
structure SidecarManager where
  is_running : Bool
  child_id : Option Nat
  error_message : Option String
deriving Repr, DecidableEq

/-- `SidecarManager::new()`: all fields start at `false` / `None` / `None`. -/
def SidecarManager.new : SidecarManager :=
  { is_running := false, child_id := none, error_message := none }

/-- `SidecarManager::is_running()`: non-blocking read of the flag. -/
def SidecarManager.running (s : SidecarManager) : Bool :=
  s.is_running

/-- `SidecarManager::get_error()`: copy of the last recorded message. -/
def SidecarManager.get_error (s : SidecarManager) : Option String :=
  s.error_message

/-- Environment outcome of the launch attempt in `start_sidecar`:
`shell.sidecar("opencode")` may fail (`cmdErr`), `command.spawn()` may
fail (`spawnErr`), or the spawn succeeds with a child pid. -/
inductive SpawnResult where
  | cmdErr (e : String) : SpawnResult
  | spawnErr (e : String) : SpawnResult
  | spawned (pid : Nat) : SpawnResult
deriving Repr, DecidableEq

/-- Result of a `start_sidecar` call: the returned `Result<(), String>`,
the post-state, and whether `command.spawn()` was actually invoked. -/
structure StartResult where
  result : Except String Unit
  state : SidecarManager
  spawnAttempted : Bool
deriving Repr

/-- `start_sidecar` after the guard and the `error_message` clear:
the `match shell.sidecar(...)` / `match command.spawn()` part
(sidecar.rs lines 33-108). -/
def start_spawn (s : SidecarManager) (env : SpawnResult) : StartResult :=
  match env with
  | .cmdErr e =>
      let error := "Failed to create sidecar command: " ++ e
      ⟨.error error, { s with error_message := some error }, false⟩
  | .spawnErr e =>
      let error := "Failed to spawn sidecar: " ++ e
      ⟨.error error, { s with error_message := some error }, true⟩
  | .spawned pid =>
      ⟨.ok (), { s with child_id := some pid, is_running := true }, true⟩

/-- `SidecarManager::start_sidecar`: if already running return `Ok(())`
immediately; otherwise clear `error_message` and attempt the launch
(sidecar.rs lines 22-109). -/
def start_sidecar (s : SidecarManager) (env : SpawnResult) : StartResult :=
  if s.is_running then ⟨.ok (), s, false⟩
  else start_spawn { s with error_message := none } env

/-- Environment outcome of `Command::new("kill").arg(pid).output()`
(resp. `taskkill` on Windows; both branches have identical state
effects and error format). `ok` covers any `Ok(_)` output. -/
inductive KillResult where
  | ok : KillResult
  | err (e : String) : KillResult
deriving Repr, DecidableEq

/-- Result of a `stop_sidecar` call: the returned `Result<(), String>`,
the post-state, and whether the kill command was actually invoked. -/
structure StopResult where
  result : Except String Unit
  state : SidecarManager
  killAttempted : Bool
deriving Repr

/-- `SidecarManager::stop_sidecar` (sidecar.rs lines 111-159): no-op
success when not running; with a pid, run the kill command and on
success clear `is_running`/`child_id`, on failure record the error and
fail; with no pid, fail with "No process ID available". -/
def stop_sidecar (s : SidecarManager) (kill : KillResult) : StopResult :=
  if !s.is_running then ⟨.ok (), s, false⟩
  else
    match s.child_id with
    | some _pid =>
        match kill with
        | .ok => ⟨.ok (), { s with is_running := false, child_id := none }, true⟩
        | .err e =>
            let error := "Failed to kill process: " ++ e
            ⟨.error error, { s with error_message := some error }, true⟩
    | none => ⟨.error "No process ID available", s, false⟩

/-- The `tauri_plugin_shell::process::CommandEvent` variants the monitor
loop matches on; `other` is the `_` catch-all arm. -/
inductive CommandEvent where
  | stdout (data : List Nat) : CommandEvent
  | stderr (data : List Nat) : CommandEvent
  | error (err : String) : CommandEvent
  | terminated (code : Option Int) : CommandEvent
  | other : CommandEvent
deriving Repr

/-- Rust `Debug` rendering of the `Option<i32>` exit code, as produced
by the `format!("... {:?}", payload.code)` in the terminated arm. -/
def debugCode : Option Int → String
  | none => "None"
  | some c => "Some(" ++ toString c ++ ")"

/-- One iteration of the monitor loop: the post-state and whether the
arm executed `break` (ending the loop). -/
structure MonitorStep where
  state : SidecarManager
  breaks : Bool
deriving Repr

/-- One event-handling step of the monitor loop spawned by
`start_sidecar` (sidecar.rs lines 48-88). -/
def monitor_step (s : SidecarManager) (ev : CommandEvent) : MonitorStep :=
  match ev with
  | .stdout _ => ⟨s, false⟩
  | .stderr _ => ⟨s, false⟩
  | .error err =>
      ⟨{ s with error_message := some ("Process error: " ++ err),
                is_running := false, child_id := none }, true⟩
  | .terminated code =>
      let s1 : SidecarManager := { s with is_running := false, child_id := none }
      let msg := "Process terminated with code: " ++ debugCode code
      if code ≠ some 0 then ⟨{ s1 with error_message := some msg }, true⟩
      else ⟨s1, true⟩
  | .other => ⟨s, false⟩

/-- An HTTP status as seen through reqwest: its numeric code and its
`Display` rendering (the text interpolated into error messages). -/
structure HttpStatus where
  code : Nat
  display : String
deriving Repr, DecidableEq

/-- `StatusCode::is_success()`: 2xx. -/
def HttpStatus.isSuccess (st : HttpStatus) : Bool :=
  200 ≤ st.code && st.code < 300

/-- Outcome of reading the health response body as JSON
(`response.json::<serde_json::Value>()`). -/
inductive HealthBody where
  | parsed (data : Json) : HealthBody
  | parseErr (e : String) : HealthBody
deriving Repr

/-- Environment outcome of `reqwest::get("http://localhost:8080/api/health")`:
transport failure, or a response with a status and a body. -/
inductive HealthOutcome where
  | transportErr (e : String) : HealthOutcome
  | response (status : HttpStatus) (body : HealthBody) : HealthOutcome
deriving Repr

/-- Result of a `health_check` / `send_prompt` call: the returned
`Result<String, String>`, the post-state, and whether a network request
was actually issued. -/
structure CallResult where
  result : Except String String
  state : SidecarManager
  networkAttempted : Bool
deriving Repr

/-- `SidecarManager::health_check` (sidecar.rs lines 161-188). -/
def health_check (s : SidecarManager) (env : HealthOutcome) : CallResult :=
  if !s.is_running then ⟨.error "Sidecar is not running", s, false⟩
  else
    match env with
    | .transportErr e => ⟨.error ("Health check request failed: " ++ e), s, true⟩
    | .response status body =>
        if status.isSuccess then
          match body with
          | .parsed data =>
              match (data.get "status").bind Json.asStr with
              | some st => ⟨.ok ("OpenCode health check: " ++ st), s, true⟩
              | none => ⟨.ok "OpenCode health check successful", s, true⟩
          | .parseErr e => ⟨.error ("Failed to parse response: " ++ e), s, true⟩
        else ⟨.error ("Health check failed with status: " ++ status.display), s, true⟩

/-- Outcome of reading the prompt response body as text (`response.text()`). -/
inductive PromptBody where
  | text (t : String) : PromptBody
  | readErr (e : String) : PromptBody
deriving Repr

/-- Environment outcome of the POST to `http://localhost:8080/api/prompt`. -/
inductive PromptOutcome where
  | transportErr (e : String) : PromptOutcome
  | response (status : HttpStatus) (body : PromptBody) : PromptOutcome
deriving Repr

/-- Result of a `send_prompt` call: the returned `Result<String, String>`,
the post-state, whether the POST was issued, and the JSON payload sent
with it (`None` when no request was made). -/
structure PromptResult where
  result : Except String String
  state : SidecarManager
  networkAttempted : Bool
  request : Option Json
deriving Repr

/-- `SidecarManager::send_prompt` (sidecar.rs lines 198-226); the body
posted is the object built by the Rust code from the prompt argument. -/
def send_prompt (s : SidecarManager) (prompt : String) (env : PromptOutcome) :
    PromptResult :=
  if !s.is_running then ⟨.error "Sidecar is not running", s, false, none⟩
  else
    let payload := Json.obj [("prompt", Json.str prompt)]
    match env with
    | .transportErr e => ⟨.error ("Request failed: " ++ e), s, true, some payload⟩
    | .response status body =>
        if status.isSuccess then
          match body with
          | .text t => ⟨.ok t, s, true, some payload⟩
          | .readErr e =>
              ⟨.error ("Failed to read response: " ++ e), s, true, some payload⟩
        else
          ⟨.error ("Request failed with status: " ++ status.display), s, true,
            some payload⟩

/-- A completed state-mutating operation on the supervisor, together
with its environment outcome: a `start_sidecar` call, a `stop_sidecar`
call, or one monitor-loop event step. -/
inductive Step where
  | start (env : SpawnResult) : Step
  | stop (kill : KillResult) : Step
  | monitor (ev : CommandEvent) : Step

/-- The state after completing one operation. -/
def applyStep (s : SidecarManager) : Step → SidecarManager
  | .start env => (start_sidecar s env).state
  | .stop kill => (stop_sidecar s kill).state
  | .monitor ev => (monitor_step s ev).state

/-- The state after completing a sequence of operations. -/
def runSteps (s : SidecarManager) (steps : List Step) : SidecarManager :=
  steps.foldl applyStep s

/-- The claimed invariant: `child_id.is_some() == running`. -/
def consistent (s : SidecarManager) : Prop :=
  s.child_id.isSome = s.is_running

theorem consistent_applyStep {s : SidecarManager} (h : consistent s)
    (st : Step) : consistent (applyStep s st) := by
  cases st with
  | start env =>
      simp only [applyStep, start_sidecar]
      by_cases hr : s.is_running
      · simpa [hr]
      · cases env <;> simp [start_spawn, consistent, hr] <;> simpa [consistent, hr] using h
  | stop kill =>
      simp only [applyStep, stop_sidecar]
      by_cases hr : s.is_running
      · cases hc : s.child_id with
        | none => simpa [hr, hc] using h
        | some pid =>
            cases kill with
            | ok => simp [hr, hc, consistent]
            | err e => simp [hr, hc, consistent]
      · simpa [hr] using h
  | monitor ev =>
      cases ev with
      | terminated code =>
          simp only [applyStep, monitor_step]
          by_cases hz : code = some 0 <;> simp [hz, consistent]
      | error err => simp [applyStep, monitor_step, consistent]
      | stdout data => simpa [applyStep, monitor_step, consistent] using h
      | stderr data => simpa [applyStep, monitor_step, consistent] using h
      | other => simpa [applyStep, monitor_step, consistent] using h

theorem consistent_runSteps {s : SidecarManager} (h : consistent s)
    (steps : List Step) : consistent (runSteps s steps) := by
  induction steps generalizing s with
  | nil => exact h
  | cons st rest ih => exact ih (consistent_applyStep h st)

/-- C1: when the monitor loop handles a `Terminated` event carrying exit
code `c`, it sets `is_running` to false and `child_id` to `none`,
breaks out of the loop, and sets `error_message` to a message naming
`c` exactly when `c` is not `Some(0)`; for code `Some(0)` the previous
`error_message` is left unchanged, not overwritten. -/
theorem monitor_terminated_spec (s : SidecarManager) (c : Option Int) :
    (monitor_step s (.terminated c)).state.is_running = false ∧
    (monitor_step s (.terminated c)).state.child_id = none ∧
    (monitor_step s (.terminated c)).breaks = true ∧
    (monitor_step s (.terminated c)).state.error_message =
      (if c = some 0 then s.error_message
       else some ("Process terminated with code: " ++ debugCode c)) := by
  by_cases hz : c = some 0 <;> simp [monitor_step, hz]

/-- C2: in every state reachable from the freshly constructed manager by
completing any sequence of `start_sidecar`, `stop_sidecar`, and
monitor-loop event steps, `child_id.isSome` equals `is_running`. -/
theorem reachable_consistent (steps : List Step) :
    (runSteps SidecarManager.new steps).child_id.isSome =
      (runSteps SidecarManager.new steps).is_running :=
  consistent_runSteps (show consistent SidecarManager.new from rfl) steps

/-- C3: when `is_running` is false, `health_check` and `send_prompt`
(for every prompt) both fail immediately with the "not running" error,
attempt no network request (and send no payload), and leave the state
unchanged. -/
theorem guard_not_running (s : SidecarManager) (h : s.is_running = false) :
    (∀ env, health_check s env = ⟨.error "Sidecar is not running", s, false⟩) ∧
    (∀ prompt env, send_prompt s prompt env =
      ⟨.error "Sidecar is not running", s, false, none⟩) := by
  constructor
  · intro env; simp [health_check, h]
  · intro prompt env; simp [send_prompt, h]

theorem guard_not_running_witness :
    health_check ⟨false, none, some "old"⟩ (.transportErr "refused") =
      ⟨.error "Sidecar is not running", ⟨false, none, some "old"⟩, false⟩ ∧
    send_prompt ⟨false, none, some "old"⟩ "hello" (.transportErr "refused") =
      ⟨.error "Sidecar is not running", ⟨false, none, some "old"⟩, false, none⟩ :=
  ⟨(guard_not_running ⟨false, none, some "old"⟩ rfl).1 (.transportErr "refused"),
   (guard_not_running ⟨false, none, some "old"⟩ rfl).2 "hello" (.transportErr "refused")⟩

/-- C4: if `is_running` is already true, `start_sidecar` returns success
immediately, attempts no spawn, and leaves the state unchanged. -/
theorem start_idempotent (s : SidecarManager) (env : SpawnResult)
    (h : s.is_running = true) :
    start_sidecar s env = ⟨.ok (), s, false⟩ := by
  simp [start_sidecar, h]

theorem start_idempotent_witness :
    start_sidecar ⟨true, some 7, none⟩ (.spawned 9) =
      ⟨.ok (), ⟨true, some 7, none⟩, false⟩ :=
  start_idempotent ⟨true, some 7, none⟩ (.spawned 9) rfl

/-- C5: if `is_running` is false, `stop_sidecar` returns success
immediately, attempts no kill, and leaves the state (including
`error_message`) unchanged. -/
theorem stop_noop (s : SidecarManager) (kill : KillResult)
    (h : s.is_running = false) :
    stop_sidecar s kill = ⟨.ok (), s, false⟩ := by
  simp [stop_sidecar, h]

theorem stop_noop_witness :
    stop_sidecar ⟨false, none, some "old"⟩ (.err "boom") =
      ⟨.ok (), ⟨false, none, some "old"⟩, false⟩ :=
  stop_noop ⟨false, none, some "old"⟩ (.err "boom") rfl

/-- C6: with `is_running = true` and a pid present, a failing kill
command makes `stop_sidecar` return the failure and record it in
`error_message`, changing nothing else: still running, same pid. -/
theorem stop_kill_error (s : SidecarManager) (pid : Nat) (e : String)
    (h : s.is_running = true) (hc : s.child_id = some pid) :
    (stop_sidecar s (.err e)).result = .error ("Failed to kill process: " ++ e) ∧
    (stop_sidecar s (.err e)).state =
      { s with error_message := some ("Failed to kill process: " ++ e) } ∧
    (stop_sidecar s (.err e)).state.is_running = true ∧
    (stop_sidecar s (.err e)).state.child_id = some pid := by
  simp [stop_sidecar, h, hc]

theorem stop_kill_error_witness :
    (stop_sidecar ⟨true, some 4, none⟩ (.err "denied")).result =
      .error "Failed to kill process: denied" ∧
    (stop_sidecar ⟨true, some 4, none⟩ (.err "denied")).state.is_running = true ∧
    (stop_sidecar ⟨true, some 4, none⟩ (.err "denied")).state.child_id = some 4 :=
  ⟨(stop_kill_error ⟨true, some 4, none⟩ 4 "denied" rfl rfl).1,
   (stop_kill_error ⟨true, some 4, none⟩ 4 "denied" rfl rfl).2.2.1,
   (stop_kill_error ⟨true, some 4, none⟩ 4 "denied" rfl rfl).2.2.2⟩

/-- C7 counterexample: a `start_sidecar` call made while `is_running` is
true returns with `error_message` untouched — contrary to the claim
that every call leaves `last_error` at `none` after its initial step. -/
theorem start_clear_counterexample :
    (start_sidecar ⟨true, some 3, some "boom"⟩ (.spawned 5)).state.error_message =
      some "boom" ∧
    (start_sidecar ⟨true, some 3, some "boom"⟩ (.spawned 5)).state.error_message ≠
      none := by
  simp [start_sidecar]

/-- C7 (amended): a `start_sidecar` call that passes the running guard
(`is_running = false`) clears `error_message` before launching — the
call behaves exactly as if the previous error were already erased, and
on success the final `error_message` is `none`; a call short-circuited
by the guard (`is_running = true`) leaves `error_message` untouched. -/
theorem start_clear_amended (s : SidecarManager) (env : SpawnResult) :
    (s.is_running = false →
      start_sidecar s env = start_sidecar { s with error_message := none } env) ∧
    (s.is_running = false → (start_sidecar s env).result = .ok () →
      (start_sidecar s env).state.error_message = none) ∧
    (s.is_running = true →
      (start_sidecar s env).state.error_message = s.error_message) := by
  refine ⟨?_, ?_, ?_⟩
  · intro h; simp [start_sidecar, h]
  · intro h hr; cases env <;> simp_all [start_sidecar, start_spawn]
  · intro h; simp [start_sidecar, h]

theorem start_clear_amended_witness :
    start_sidecar ⟨false, none, some "old"⟩ (.spawned 4) =
      start_sidecar ⟨false, none, none⟩ (.spawned 4) ∧
    (start_sidecar ⟨false, none, some "old"⟩ (.spawned 4)).state.error_message =
      none :=
  ⟨(start_clear_amended ⟨false, none, some "old"⟩ (.spawned 4)).1 rfl,
   (start_clear_amended ⟨false, none, some "old"⟩ (.spawned 4)).2.1 rfl rfl⟩

/-- C8: with `is_running = true`, `health_check` returns: on a success
status whose body parses to JSON with a string "status" field, a
success message carrying that value; on a success status without a
recognizable status field, the generic success message; and on a
non-success status, a transport failure, or an unparseable body,
distinct errors carrying the status display, the underlying error text,
and the parse error text respectively. -/
theorem health_check_spec (s : SidecarManager) (h : s.is_running = true) :
    (∀ st data sval, st.isSuccess = true →
      (data.get "status").bind Json.asStr = some sval →
      (health_check s (.response st (.parsed data))).result =
        .ok ("OpenCode health check: " ++ sval)) ∧
    (∀ st data, st.isSuccess = true →
      (data.get "status").bind Json.asStr = none →
      (health_check s (.response st (.parsed data))).result =
        .ok "OpenCode health check successful") ∧
    (∀ st body, st.isSuccess = false →
      (health_check s (.response st body)).result =
        .error ("Health check failed with status: " ++ st.display)) ∧
    (∀ e, (health_check s (.transportErr e)).result =
      .error ("Health check request failed: " ++ e)) ∧
    (∀ st e, st.isSuccess = true →
      (health_check s (.response st (.parseErr e))).result =
        .error ("Failed to parse response: " ++ e)) := by
  refine ⟨?_, ?_, ?_, ?_, ?_⟩
  · intro st data sval hs hv; simp [health_check, h, hs, hv]
  · intro st data hs hv; simp [health_check, h, hs, hv]
  · intro st body hs; simp [health_check, h, hs]
  · intro e; simp [health_check, h]
  · intro st e hs; simp [health_check, h, hs]

theorem health_check_spec_witness :
    (health_check ⟨true, some 1, none⟩
        (.response ⟨200, "200 OK"⟩
          (.parsed (.obj [("status", .str "ok")])))).result =
      .ok "OpenCode health check: ok" ∧
    (health_check ⟨true, some 1, none⟩ (.transportErr "connection refused")).result =
      .error "Health check request failed: connection refused" :=
  ⟨(health_check_spec ⟨true, some 1, none⟩ rfl).1 ⟨200, "200 OK"⟩
      (.obj [("status", .str "ok")]) "ok" rfl rfl,
   (health_check_spec ⟨true, some 1, none⟩ rfl).2.2.2.1 "connection refused"⟩

/-- C9: `stop_sidecar` called with `is_running = true` but `child_id =
none` fails with the distinct "No process ID available" error rather
than succeeding silently; no kill is attempted and the state is
unchanged. -/
theorem stop_no_pid (s : SidecarManager) (kill : KillResult)
    (h : s.is_running = true) (hc : s.child_id = none) :
    stop_sidecar s kill = ⟨.error "No process ID available", s, false⟩ := by
  simp [stop_sidecar, h, hc]

theorem stop_no_pid_witness :
    stop_sidecar ⟨true, none, none⟩ .ok =
      ⟨.error "No process ID available", ⟨true, none, none⟩, false⟩ :=
  stop_no_pid ⟨true, none, none⟩ .ok rfl rfl

/-- C10: whenever `start_sidecar` returns an error, exactly that message
is stored in `error_message` (so `get_error` returns the same string),
`is_running` remains false, and `child_id` remains `none` (given it was
`none` beforehand, as the invariant guarantees for non-running states). -/
theorem start_error_recorded (s : SidecarManager) (env : SpawnResult)
    (e : String) (hn : s.child_id = none)
    (h : (start_sidecar s env).result = .error e) :
    (start_sidecar s env).state.error_message = some e ∧
    ((start_sidecar s env).state).get_error = some e ∧
    (start_sidecar s env).state.is_running = false ∧
    (start_sidecar s env).state.child_id = none := by
  by_cases hr : s.is_running
  · simp [start_sidecar, hr] at h
  · cases env <;> simp_all [start_sidecar, start_spawn, SidecarManager.get_error]

theorem start_error_recorded_witness :
    (start_sidecar ⟨false, none, some "stale"⟩ (.cmdErr "missing")).state.error_message =
      some "Failed to create sidecar command: missing" ∧
    (start_sidecar ⟨false, none, some "stale"⟩ (.cmdErr "missing")).state.is_running =
      false :=
  ⟨(start_error_recorded ⟨false, none, some "stale"⟩ (.cmdErr "missing")
      "Failed to create sidecar command: missing" rfl rfl).1,
   (start_error_recorded ⟨false, none, some "stale"⟩ (.cmdErr "missing")
      "Failed to create sidecar command: missing" rfl rfl).2.2.1⟩

end Sidecar
